import Mathlib

/-!
# Verification of the KeyCloak OIDC gateway service

A shallow embedding of `KeyCloakService` (keycloak.service.ts): discovery
configuration, JWKS fetching and key-map construction, token generation,
user registration, token introspection and JWT verification.

External effects (HTTP transport, the `jsonwebtoken` and `jwk-to-pem`
libraries, clock) are parameters of the embedded functions; each method
returns its JavaScript-level outcome (`Except JSError α`) together with the
trace of observable events (log lines and HTTP requests) it emitted, in
order.
-/

deriving instance DecidableEq for Except

namespace KeyCloak

/-- JavaScript-level failures observable from the service's methods.
`unauthorizedException` and `internalServerErrorException` are the NestJS
exceptions thrown explicitly by the source; `assertionError` is what
`assert.ok` throws on a falsy argument; `typeError` is the runtime fault
from reading a property of `undefined`; `jwtError` is a verification
failure thrown by the `jsonwebtoken` library; `httpError` is a transport
or provider failure surfaced by the HTTP client. -/
inductive JSError where
  | unauthorizedException (msg : String)
  | internalServerErrorException (msg : String)
  | assertionError (msg : String)
  | typeError (msg : String)
  | jwtError (msg : String)
  | httpError (msg : String)
deriving DecidableEq, Repr

/-- Spec §7 taxonomy: a ConfigurationError is a required setting or cached
field found missing, reported through `assert.ok` in the source. -/
def JSError.isConfigurationError : JSError → Bool
  | .assertionError _ => true
  | _ => false

/-- Spec §7 taxonomy: the Unauthorized category is a signature, issuer or
key-lookup failure during verification — the explicit
`UnauthorizedException` of the source or a verification error raised by the
JWT library. -/
def JSError.isUnauthorizedError : JSError → Bool
  | .unauthorizedException _ => true
  | .jwtError _ => true
  | _ => false

/-- JavaScript truthiness of a possibly-undefined string: `undefined` and
the empty string are falsy. This is the test `assert.ok` applies. -/
def truthy : Option String → Bool
  | none => false
  | some s => !s.isEmpty

/-- Template-literal rendering of a possibly-undefined string:
interpolating `undefined` into a template string produces the text
"undefined". -/
def jsStr : Option String → String
  | none => "undefined"
  | some s => s

/-- The OIDC discovery document (`OIDCIdentityConfig` in the source); every
field is optional. -/
structure OIDCIdentityConfig where
  issuer : Option String
  introspection_endpoint : Option String
  jwks_uri : Option String
  token_endpoint : Option String
deriving DecidableEq, Repr

/-- `ClientCredentials` from the source. Both fields come from
`configService.get`, which can return `undefined`, so both are optional
at runtime. -/
structure ClientCredentials where
  client_id : Option String
  client_secret : Option String
deriving DecidableEq, Repr

/-- The service state after construction: configuration-derived fields plus
the discovery cache `config`, which is `none` until `discovery()` has
completed. -/
structure KeyCloakEnv where
  server_uri : Option String
  realm : Option String
  clientAdmin : ClientCredentials
  clientUser : ClientCredentials
  config : Option OIDCIdentityConfig
deriving DecidableEq, Repr

/-- A token response (`Token` in the source). -/
structure Token where
  token_type : String
  access_token : String
  refresh_token : Option String
  refresh_expires_in : Int
  expires_in : Option Int
deriving DecidableEq, Repr

/-- `RegisterUserData` from the source. -/
structure RegisterUserData where
  email : String
  firstName : String
  lastName : String
  password : String
deriving DecidableEq, Repr

/-- `GenerateTokenData` from the source. -/
structure GenerateTokenData where
  username : String
  password : String
deriving DecidableEq, Repr

/-- One credential entry of the user-creation payload built by
`registerUser`. -/
structure Credential where
  type : String
  value : String
  temporary : Bool
deriving DecidableEq, Repr

/-- The JSON body `registerUser` POSTs to the admin users endpoint. -/
structure UserRepresentation where
  firstName : String
  lastName : String
  email : String
  enabled : Bool
  username : String
  credentials : List Credential
deriving DecidableEq, Repr

/-- A JSON Web Key as consumed by `getJWKs`: its `kid` plus the remaining
key material, which this service only ever passes through `jwkToPem`. -/
structure JWK where
  kid : String
  material : String
deriving DecidableEq, Repr

/-- The JWKS document fetched from `jwks_uri`; `keys` is `none` when the
response has no `keys` field (the `!data.keys` check in the source). -/
structure JWKSResponse where
  keys : Option (List JWK)
deriving DecidableEq, Repr

/-- The body of an HTTP POST issued by the service: a form-url-encoded
string or the JSON user-creation payload. -/
inductive PostBody where
  | form (s : String)
  | json (u : UserRepresentation)
deriving DecidableEq, Repr

/-- Observable events emitted by the service, in program order. -/
inductive Event where
  | logDebug (msg : String)
  | logError
  | consoleLog (msg : String)
  | httpPost (url : Option String) (body : PostBody) (headers : List (String × String))
  | httpLoadJSON (url : String)
deriving DecidableEq, Repr

/-- Whether an event is an outgoing HTTP request (POST or JSON fetch). -/
def Event.isHttpRequest : Event → Bool
  | .httpPost _ _ _ => true
  | .httpLoadJSON _ => true
  | _ => false

/-- The HTTP requests of a trace, in order. -/
def requestsOf (evs : List Event) : List Event :=
  evs.filter Event.isHttpRequest

/-! ## qs.stringify -/

/-- Upper-case hexadecimal digit. -/
def hexDigit (n : Nat) : Char :=
  if n < 10 then Char.ofNat (48 + n) else Char.ofNat (55 + n)

/-- Percent-encoding of a single byte. -/
def percentByte (b : Nat) : String :=
  String.mk ['%', hexDigit (b / 16 % 16), hexDigit (b % 16)]

/-- UTF-8 bytes of a character. -/
def utf8Bytes (c : Char) : List Nat :=
  let n := c.toNat
  if n < 128 then [n]
  else if n < 2048 then [192 + n / 64, 128 + n % 64]
  else if n < 65536 then [224 + n / 4096, 128 + n / 64 % 64, 128 + n % 64]
  else [240 + n / 262144, 128 + n / 4096 % 64, 128 + n / 64 % 64, 128 + n % 64]

/-- RFC 3986 unreserved characters, left unencoded by `qs`. -/
def isUnreservedChar (c : Char) : Bool :=
  c.isAlphanum || c == '-' || c == '_' || c == '.' || c == '~'

/-- Percent-encoding of a string, as the `qs` library applies to each key
and value. -/
def urlencode (s : String) : String :=
  s.data.foldl
    (fun acc c =>
      acc ++ (if isUnreservedChar c then String.mk [c]
              else String.join ((utf8Bytes c).map percentByte)))
    ""

/-- `qs.stringify` on a flat record of possibly-undefined strings: fields
holding `undefined` are skipped, the rest are rendered `key=value` in
object order, percent-encoded and joined with `&`. -/
def stringify (ps : List (String × Option String)) : String :=
  String.intercalate "&"
    ((ps.filterMap (fun p => p.2.map (fun v => (p.1, v)))).map
      (fun p => urlencode p.1 ++ "=" ++ urlencode p.2))

/-! ## The key map (JavaScript `Map` built by `getJWKs`) -/

/-- `Map.prototype.set`: replace the value in place when the key exists,
append otherwise. -/
def mapSet (m : List (String × String)) (k v : String) : List (String × String) :=
  if m.any (fun p => p.1 = k) then
    m.map (fun p => if p.1 = k then (k, v) else p)
  else m ++ [(k, v)]

/-- `Map.prototype.has`. -/
def mapHas (m : List (String × String)) (k : String) : Bool :=
  m.any (fun p => p.1 = k)

/-- `Map.prototype.get` (`none` for a missing key, i.e. `undefined`). -/
def mapGet (m : List (String × String)) (k : String) : Option String :=
  (m.find? (fun p => p.1 = k)).map (·.2)

/-- The map `new Map(data.keys.map(key => [key.kid, jwkToPem(key)]))`:
the `Map` constructor sets each pair in list order, so a repeated `kid`
keeps the value of its last occurrence. `jwkToPem` is the external
`jwk-to-pem` conversion, a parameter of the embedding. -/
def buildPemMap (jwkToPem : JWK → String) (keys : List JWK) : List (String × String) :=
  keys.foldl (fun m k => mapSet m k.kid (jwkToPem k)) []

theorem mapGet_cons (p : String × String) (m : List (String × String))
    (k' : String) :
    mapGet (p :: m) k' = if p.1 = k' then some p.2 else mapGet m k' := by
  unfold mapGet
  rw [List.find?_cons]
  by_cases hp : p.1 = k'
  · simp [hp]
  · simp [hp]

theorem mapGet_map_self (k v : String) (m : List (String × String)) :
    mapGet (m.map (fun p => if p.1 = k then (k, v) else p)) k =
      if m.any (fun p => p.1 = k) then some v else none := by
  induction m with
  | nil => rfl
  | cons p m ih =>
    by_cases hp : p.1 = k
    · rw [List.map_cons, if_pos hp, mapGet_cons]
      simp [hp]
    · rw [List.map_cons, if_neg hp, mapGet_cons, if_neg hp, ih, List.any_cons]
      rw [decide_eq_false hp, Bool.false_or]

theorem mapGet_map_other (k v k' : String) (h : k' ≠ k)
    (m : List (String × String)) :
    mapGet (m.map (fun p => if p.1 = k then (k, v) else p)) k' = mapGet m k' := by
  induction m with
  | nil => rfl
  | cons p m ih =>
    by_cases hp : p.1 = k
    · have h1 : ¬ ((k : String) = k') := fun hh => h hh.symm
      have h2 : ¬ (p.1 = k') := fun hh => h1 (hp.symm.trans hh)
      rw [List.map_cons, if_pos hp, mapGet_cons, mapGet_cons, if_neg h1, if_neg h2, ih]
    · rw [List.map_cons, if_neg hp, mapGet_cons, mapGet_cons, ih]

theorem mapGet_append_single (m : List (String × String)) (k v k' : String) :
    mapGet (m ++ [(k, v)]) k' =
      match mapGet m k' with
      | some w => some w
      | none => if k' = k then some v else none := by
  unfold mapGet
  rw [List.find?_append]
  cases hf : m.find? (fun p => p.1 = k') with
  | some p => simp [hf]
  | none =>
    by_cases hk : k' = k
    · simp [hf, List.find?_cons, hk]
    · have h1 : ¬ ((k : String) = k') := fun hh => hk hh.symm
      simp [hf, List.find?_cons, h1, hk]

theorem mapGet_none_of_not_any (m : List (String × String)) (k : String)
    (h : m.any (fun p => p.1 = k) = false) : mapGet m k = none := by
  unfold mapGet
  have hf : m.find? (fun p => p.1 = k) = none := by
    rw [List.find?_eq_none]
    intro p hp
    simp only [decide_eq_true_eq]
    intro hpk
    have ha : m.any (fun p => p.1 = k) = true :=
      List.any_eq_true.mpr ⟨p, hp, by simp [hpk]⟩
    rw [h] at ha
    exact Bool.false_ne_true ha
  simp [hf]

theorem mapGet_mapSet (m : List (String × String)) (k v k' : String) :
    mapGet (mapSet m k v) k' = if k' = k then some v else mapGet m k' := by
  unfold mapSet
  by_cases hmem : m.any (fun p => p.1 = k)
  · simp only [hmem, if_true]
    by_cases hk : k' = k
    · subst hk
      rw [mapGet_map_self]
      simp [hmem]
    · rw [mapGet_map_other k v k' hk]
      simp [hk]
  · simp only [hmem, Bool.false_eq_true, if_false]
    rw [mapGet_append_single]
    by_cases hk : k' = k
    · subst hk
      rw [mapGet_none_of_not_any m k' (Bool.eq_false_iff.mpr hmem)]
    · cases hg : mapGet m k' with
      | some w => simp [hk, hg]
      | none => simp [hk, hg]

theorem buildPemMap_get_aux (jwkToPem : JWK → String) (keys : List JWK)
    (kid : String) :
    ∀ m, mapGet (keys.foldl (fun m k => mapSet m k.kid (jwkToPem k)) m) kid =
      match keys.reverse.find? (fun k => k.kid = kid) with
      | some k0 => some (jwkToPem k0)
      | none => mapGet m kid := by
  induction keys with
  | nil => intro m; simp
  | cons k keys ih =>
    intro m
    simp only [List.foldl_cons, List.reverse_cons, List.find?_append]
    rw [ih]
    cases hfind : keys.reverse.find? (fun k => k.kid = kid) with
    | some k0 => simp [hfind]
    | none =>
      simp only [hfind, Option.none_orElse]
      rw [mapGet_mapSet]
      by_cases hk : k.kid = kid
      · simp [List.find?_cons, hk]
      · have hk' : ¬ (kid = k.kid) := fun h => hk h.symm
        simp [List.find?_cons, hk, hk']

/-! ## The service methods -/

/-- The raw values `configService.get` returns for the six settings read in
the constructor; each may be `undefined`. -/
structure RawConfig where
  server_uri : Option String
  realm : Option String
  userClientId : Option String
  userClientSecret : Option String
  adminClientId : Option String
  adminClientSecret : Option String
deriving DecidableEq, Repr

/-- The constructor of `KeyCloakService`: reads the six settings, then runs
the five `assert.ok` checks in source order (`realm`, `server_uri`, user
`client_id`, admin `client_id`, admin `client_secret`). There is no check
of the user `client_secret`. The discovery cache starts empty (`discovery()`
is fired without awaiting; its outcome is not part of construction). -/
def constructorKC (c : RawConfig) : Except JSError KeyCloakEnv :=
  if !truthy c.realm then .error (.assertionError "\"realm\" is not defined.")
  else if !truthy c.server_uri then
    .error (.assertionError "\"metadata_uri\" is not defined.")
  else if !truthy c.userClientId then
    .error (.assertionError "\"client_id\" is not defined.")
  else if !truthy c.adminClientId then
    .error (.assertionError "Admin \"client_id\" is not defined.")
  else if !truthy c.adminClientSecret then
    .error (.assertionError "Admin \"client_secret\" is not defined.")
  else
    .ok { server_uri := c.server_uri, realm := c.realm,
          clientAdmin := { client_id := c.adminClientId,
                           client_secret := c.adminClientSecret },
          clientUser := { client_id := c.userClientId,
                          client_secret := c.userClientSecret },
          config := none }

/-- The form body `generateToken` builds: the password-grant record when
`tokenData` is supplied (spread first, so `username`, `password`,
`grant_type`, `client_id`, `client_secret` in that order, using the user
client), the client-credentials record (admin client) otherwise. -/
def generateTokenBody (env : KeyCloakEnv) (tokenData : Option GenerateTokenData) :
    String :=
  match tokenData with
  | some td =>
      stringify [("username", some td.username), ("password", some td.password),
        ("grant_type", some "password"),
        ("client_id", env.clientUser.client_id),
        ("client_secret", env.clientUser.client_secret)]
  | none =>
      stringify [("grant_type", some "client_credentials"),
        ("client_id", env.clientAdmin.client_id),
        ("client_secret", env.clientAdmin.client_secret)]

/-- `generateToken`: builds the grant body, logs it to the console, then
POSTs it to `this.config.token_endpoint`. There is no presence check on the
endpoint: when the discovery cache is absent, reading `token_endpoint` from
`undefined` raises a TypeError; when only the endpoint field is absent, the
POST is issued with an `undefined` URL. The `try/catch` of the source wraps
a `return` of an un-awaited promise, so a rejected request propagates to
the caller without passing through the catch (no `log.error` is emitted on
this path). `post` is the HTTP client's response behaviour. -/
def generateToken (env : KeyCloakEnv) (tokenData : Option GenerateTokenData)
    (post : Option String → String → Except JSError Token) :
    Except JSError Token × List Event :=
  let data := generateTokenBody env tokenData
  match env.config with
  | none =>
      (.error (.typeError "Cannot read properties of undefined (reading token_endpoint)"),
       [.consoleLog data])
  | some cfg =>
      (post cfg.token_endpoint data,
       [.consoleLog data,
        .httpPost cfg.token_endpoint (.form data)
          [("Content-Type", "application/x-www-form-urlencoded")]])

/-- The JSON payload `registerUser` POSTs to the admin users endpoint. -/
def registerBody (d : RegisterUserData) : UserRepresentation :=
  { firstName := d.firstName, lastName := d.lastName, email := d.email,
    enabled := true, username := d.email,
    credentials := [{ type := "password", value := d.password,
                      temporary := false }] }

/-- The admin users endpoint URL built by `registerUser`. -/
def registerUrl (env : KeyCloakEnv) : String :=
  jsStr env.server_uri ++ "/admin/realms/" ++ jsStr env.realm ++ "/users"

/-- `registerUser`: logs a debug line, obtains an admin token through
`generateToken()` (client-credentials grant), logs the bearer header to
the console, then POSTs the user-creation payload. A failing POST is
caught, logged through `log.error` and rethrown; a failing token
acquisition propagates before the `try` block is entered. -/
def registerUser (env : KeyCloakEnv) (d : RegisterUserData)
    (postToken : Option String → String → Except JSError Token)
    (postUsers : String → UserRepresentation → List (String × String) →
      Except JSError Unit) :
    Except JSError Unit × List Event :=
  let t := generateToken env none postToken
  let evs := Event.logDebug "Called registerUser" :: t.2
  match t.1 with
  | .error e => (.error e, evs)
  | .ok tok =>
      let auth := tok.token_type ++ " " ++ tok.access_token
      let url := registerUrl env
      let hdrs := [("Content-Type", "application/json"), ("Authorization", auth)]
      let evs := evs ++ [Event.consoleLog auth,
        Event.httpPost (some url) (.json (registerBody d)) hdrs]
      match postUsers url (registerBody d) hdrs with
      | .error e => (.error e, evs ++ [Event.logError])
      | .ok _ => (.ok (), evs)

/-- `introspectToken`: asserts `this.config.introspection_endpoint` is
truthy (a TypeError when the discovery cache itself is absent, an
AssertionError when only the field is missing or empty), then obtains an
admin token and POSTs the form-encoded target token to the introspection
endpoint with the bearer header. -/
def introspectToken (env : KeyCloakEnv) (token : String)
    (postToken : Option String → String → Except JSError Token)
    (postIntrospect : Option String → String → List (String × String) →
      Except JSError (List (String × String))) :
    Except JSError (List (String × String)) × List Event :=
  match env.config with
  | none =>
      (.error (.typeError "Cannot read properties of undefined (reading introspection_endpoint)"),
       [])
  | some cfg =>
      if !truthy cfg.introspection_endpoint then
        (.error (.assertionError "Missing \"introspection_endpoint\""), [])
      else
        let t := generateToken env none postToken
        match t.1 with
        | .error e => (.error e, t.2)
        | .ok tok =>
            let data := stringify [("token", some token)]
            let hdrs := [("Authorization", tok.token_type ++ " " ++ tok.access_token),
              ("Content-Type", "application/x-www-form-urlencoded")]
            (postIntrospect cfg.introspection_endpoint data hdrs,
             t.2 ++ [Event.httpPost cfg.introspection_endpoint (.form data) hdrs])

/-- `getJWKs`: asserts `this.config.jwks_uri` is truthy (TypeError when the
discovery cache is absent, AssertionError when the field is missing or
empty), fetches the JWKS document, rejects a response without a `keys`
field with an `InternalServerErrorException`, and otherwise builds the
kid-to-PEM map. `loadJSON` is the HTTP client's response behaviour and
`jwkToPem` the external `jwk-to-pem` conversion. -/
def getJWKs (env : KeyCloakEnv)
    (loadJSON : String → Except JSError JWKSResponse)
    (jwkToPem : JWK → String) :
    Except JSError (List (String × String)) × List Event :=
  match env.config with
  | none =>
      (.error (.typeError "Cannot read properties of undefined (reading jwks_uri)"), [])
  | some cfg =>
      match cfg.jwks_uri with
      | none => (.error (.assertionError "Missing \"jwks_uri\""), [])
      | some uri =>
          if uri.isEmpty then
            (.error (.assertionError "Missing \"jwks_uri\""), [])
          else
            match loadJSON uri with
            | .error e => (.error e, [Event.httpLoadJSON uri])
            | .ok data =>
                match data.keys with
                | none =>
                    (.error (.internalServerErrorException
                      "Internal error occurred downloading JWKS data."),
                     [Event.httpLoadJSON uri])
                | some ks =>
                    (.ok (buildPemMap jwkToPem ks), [Event.httpLoadJSON uri])

/-! ## The jsonwebtoken verify model -/

/-- A decoded JWT header. -/
structure JwtHeader where
  alg : String
  kid : Option String
deriving DecidableEq, Repr

/-- The claims of a decoded JWT payload that this service's verification
can touch. -/
structure JwtPayload where
  iss : Option String
  sub : Option String
  exp : Option Nat
deriving DecidableEq, Repr

/-- A decoded JWT. -/
structure Jwt where
  header : JwtHeader
  payload : JwtPayload
  signature : String
deriving DecidableEq, Repr

/-- The options record accepted by `jsonwebtoken.verify`, restricted to the
fields this service can reach: the pinned issuer and the allowed algorithm
list (absent when the caller does not pin algorithms). -/
structure VerifyOptions where
  issuer : Option String
  algorithms : Option (List String)
deriving DecidableEq, Repr

/-- The options object `verifyToken` passes to `verify`: the source writes
`verify(token, pems.get(kid), (issuer: this.config.issuer))` — only the
issuer field, no `algorithms` pin. -/
def verifyOptionsOf (cfg : OIDCIdentityConfig) : VerifyOptions :=
  { issuer := cfg.issuer, algorithms := none }

/-- `jsonwebtoken.verify`, modelled from the library's documented
behaviour. `libDefault` is the algorithm list the library falls back to
when the caller passes no `algorithms` option (the library derives it from
the shape of the key material; it is version-dependent, so it is a
parameter here). `sigCheck alg tok key` is the cryptographic signature
check, also a parameter. Order of checks as documented: allowed algorithm,
signature, expiry, then the issuer claim when a truthy issuer option was
given. -/
def jwtVerify (sigCheck : String → Jwt → String → Bool)
    (libDefault : String → List String) (now : Nat)
    (tok : Jwt) (key : String) (opts : VerifyOptions) :
    Except JSError JwtPayload :=
  let algs := opts.algorithms.getD (libDefault key)
  if !algs.contains tok.header.alg then .error (.jwtError "invalid algorithm")
  else if !sigCheck tok.header.alg tok key then
    .error (.jwtError "invalid signature")
  else if (match tok.payload.exp with
           | some e => decide (e ≤ now)
           | none => false) then
    .error (.jwtError "jwt expired")
  else if truthy opts.issuer then
    if tok.payload.iss == opts.issuer then .ok tok.payload
    else .error (.jwtError "jwt issuer invalid")
  else .ok tok.payload

/-- `verifyToken`: fetches the key map through `getJWKs`, throws
`UnauthorizedException` when the requested `kid` is absent, and otherwise
delegates to `verify` with the looked-up PEM and the issuer-only options.
-/
def verifyToken (env : KeyCloakEnv) (tok : Jwt) (kid : String)
    (loadJSON : String → Except JSError JWKSResponse)
    (jwkToPem : JWK → String)
    (sigCheck : String → Jwt → String → Bool)
    (libDefault : String → List String) (now : Nat) :
    Except JSError JwtPayload × List Event :=
  let g := getJWKs env loadJSON jwkToPem
  match g.1 with
  | .error e => (.error e, g.2)
  | .ok pems =>
      if !mapHas pems kid then
        (.error (.unauthorizedException
          "Authorization header contains an invalid JWT token."), g.2)
      else
        match env.config with
        | some cfg =>
            match mapGet pems kid with
            | some pem =>
                (jwtVerify sigCheck libDefault now tok pem (verifyOptionsOf cfg), g.2)
            | none =>
                (.error (.jwtError "secret or public key must be provided"), g.2)
        | none =>
            (.error (.typeError "Cannot read properties of undefined (reading issuer)"),
             g.2)

/-- A key found through `mapGet` is reported present by `mapHas`. -/
theorem mapHas_of_get (m : List (String × String)) (k : String) (v : String)
    (h : mapGet m k = some v) : mapHas m k = true := by
  unfold mapGet at h
  unfold mapHas
  cases hf : m.find? (fun p => p.1 = k) with
  | none => rw [hf] at h; simp at h
  | some p =>
    have hp := List.find?_some hf
    have hmem := List.mem_of_find?_eq_some hf
    simp only [decide_eq_true_eq] at hp
    exact List.any_eq_true.mpr ⟨p, hmem, by simp [hp]⟩

/-- Whether a JavaScript-level outcome is a success. -/
def isOkE {α : Type} : Except JSError α → Bool
  | .ok _ => true
  | .error _ => false

/-! ## Claims -/

/-- C10: for every JWKS whose key list repeats a `kid`, the map built by
`getJWKs` binds that `kid` to the PEM conversion of the last such entry
(the JavaScript `Map` constructor lets later pairs overwrite earlier ones);
a `kid` appearing exactly once is bound to the PEM of that unique entry —
the special case where the last matching entry is the only one. The last
matching entry is the first match in the reversed list. -/
theorem c10_key_map_binds_last_occurrence (jwkToPem : JWK → String)
    (ks : List JWK) (kid : String) (k0 : JWK)
    (h : ks.reverse.find? (fun k => k.kid = kid) = some k0) :
    mapGet (buildPemMap jwkToPem ks) kid = some (jwkToPem k0) := by
  unfold buildPemMap
  rw [buildPemMap_get_aux jwkToPem ks kid []]
  simp [h]

/-- Witness for C10: a JWKS with `kid1` twice and `kid2` once; `kid1` maps
to the conversion of the last `kid1` entry, exercised at a concrete list. -/
theorem c10_key_map_binds_last_occurrence_witness :
    mapGet (buildPemMap (fun k => k.material ++ "-pem")
      [⟨"kid1", "A"⟩, ⟨"kid2", "B"⟩, ⟨"kid1", "C"⟩]) "kid1" = some "C-pem" :=
  c10_key_map_binds_last_occurrence (fun k => k.material ++ "-pem")
    [⟨"kid1", "A"⟩, ⟨"kid2", "B"⟩, ⟨"kid1", "C"⟩] "kid1" ⟨"kid1", "C"⟩ (by decide)

/-- C9 counterexample: a configuration whose user client secret is missing
(`undefined`) but whose other five settings are present passes construction
— `constructorKC` succeeds instead of failing fast, contradicting the claim
that a missing user client secret fails construction. -/
theorem c9_counterexample :
    constructorKC ⟨some "http://kc", some "realm", some "uclient", none,
        some "aclient", some "asecret"⟩ =
      .ok { server_uri := some "http://kc", realm := some "realm",
            clientAdmin := { client_id := some "aclient",
                             client_secret := some "asecret" },
            clientUser := { client_id := some "uclient",
                            client_secret := none },
            config := none } := by decide

/-- C9 amended: construction fails fast (with a descriptive assertion
error) exactly when one of the five checked settings — realm, server URI,
user client id, admin client id, admin client secret — is missing or
empty; the user client secret is never checked at construction. -/
theorem c9_constructor_checks (c : RawConfig) :
    isOkE (constructorKC c) =
      (truthy c.realm && truthy c.server_uri && truthy c.userClientId &&
       truthy c.adminClientId && truthy c.adminClientSecret) := by
  unfold constructorKC
  cases truthy c.realm <;> cases truthy c.server_uri <;>
    cases truthy c.userClientId <;> cases truthy c.adminClientId <;>
    cases truthy c.adminClientSecret <;> simp [isOkE]

/-- C7 counterexample: with the discovery cache still empty, absolutely no
network call is made, but the failure is a TypeError from dereferencing the
absent cache, not a ConfigurationError. -/
theorem c7_counterexample :
    introspectToken
        ⟨some "http://kc", some "r", ⟨some "a", some "as"⟩,
         ⟨some "u", some "us"⟩, none⟩ "abc"
        (fun _ _ => .error (.httpError "no network"))
        (fun _ _ _ => .error (.httpError "no network")) =
      (.error (.typeError "Cannot read properties of undefined (reading introspection_endpoint)"),
       [])
    ∧ (JSError.typeError "Cannot read properties of undefined (reading introspection_endpoint)").isConfigurationError
        = false := by
  exact ⟨by decide, by decide⟩

/-- C7 amended: when the discovery cache holds a document without a truthy
`introspection_endpoint`, `introspectToken` fails with the configuration
assertion error before any network call (its trace is empty); when the
discovery cache itself is still absent, it fails with a TypeError, also
before any network call. -/
theorem c7_introspect_requires_endpoint (env : KeyCloakEnv)
    (cfg : OIDCIdentityConfig) (token : String)
    (postToken : Option String → String → Except JSError Token)
    (postIntrospect : Option String → String → List (String × String) →
      Except JSError (List (String × String)))
    (hcfg : env.config = some cfg)
    (hend : truthy cfg.introspection_endpoint = false) :
    introspectToken env token postToken postIntrospect =
      (.error (.assertionError "Missing \"introspection_endpoint\""), [])
    ∧ (JSError.assertionError "Missing \"introspection_endpoint\"").isConfigurationError
        = true
    ∧ (∀ env2 : KeyCloakEnv, env2.config = none →
        introspectToken env2 token postToken postIntrospect =
          (.error (.typeError "Cannot read properties of undefined (reading introspection_endpoint)"),
           [])) := by
  refine ⟨?_, by decide, ?_⟩
  · unfold introspectToken
    rw [hcfg]
    simp [hend]
  · intro env2 h2
    unfold introspectToken
    rw [h2]

/-- Witness for C7 amended: exercised at a concrete service state whose
cached document has no introspection endpoint, and at one with no cached
document at all. -/
theorem c7_introspect_requires_endpoint_witness :
    introspectToken
        ⟨some "http://kc", some "r", ⟨some "a", some "as"⟩,
         ⟨some "u", some "us"⟩,
         some ⟨some "http://kc/realms/r", none, some "http://kc/jwks",
               some "http://kc/token"⟩⟩ "abc"
        (fun _ _ => .error (.httpError "no network"))
        (fun _ _ _ => .error (.httpError "no network")) =
      (.error (.assertionError "Missing \"introspection_endpoint\""), [])
    ∧ (JSError.assertionError "Missing \"introspection_endpoint\"").isConfigurationError
        = true
    ∧ (∀ env2 : KeyCloakEnv, env2.config = none →
        introspectToken env2 "abc"
            (fun _ _ => .error (.httpError "no network"))
            (fun _ _ _ => .error (.httpError "no network")) =
          (.error (.typeError "Cannot read properties of undefined (reading introspection_endpoint)"),
           [])) :=
  c7_introspect_requires_endpoint
    ⟨some "http://kc", some "r", ⟨some "a", some "as"⟩,
     ⟨some "u", some "us"⟩,
     some ⟨some "http://kc/realms/r", none, some "http://kc/jwks",
           some "http://kc/token"⟩⟩
    ⟨some "http://kc/realms/r", none, some "http://kc/jwks",
     some "http://kc/token"⟩
    "abc" (fun _ _ => .error (.httpError "no network"))
    (fun _ _ _ => .error (.httpError "no network")) rfl (by decide)

/-- When the discovery cache holds a document with a truthy `jwks_uri` and
the fetch returns a document with a key list, `getJWKs` returns the built
key map after exactly one JSON fetch. -/
theorem getJWKs_ok (env : KeyCloakEnv) (cfg : OIDCIdentityConfig)
    (uri : String) (ks : List JWK)
    (loadJSON : String → Except JSError JWKSResponse) (jwkToPem : JWK → String)
    (hcfg : env.config = some cfg) (huri : cfg.jwks_uri = some uri)
    (hne : uri.isEmpty = false) (hfetch : loadJSON uri = .ok ⟨some ks⟩) :
    getJWKs env loadJSON jwkToPem =
      (.ok (buildPemMap jwkToPem ks), [Event.httpLoadJSON uri]) := by
  unfold getJWKs
  rw [hcfg]
  simp [huri, hne, hfetch]

/-- When the key map holds the requested `kid`, `verifyToken` delegates
wholesale to `verify` with the looked-up PEM and the issuer-only options. -/
theorem verifyToken_delegates (env : KeyCloakEnv) (cfg : OIDCIdentityConfig)
    (uri : String) (ks : List JWK) (pem : String) (tok : Jwt) (kid : String)
    (loadJSON : String → Except JSError JWKSResponse) (jwkToPem : JWK → String)
    (sigCheck : String → Jwt → String → Bool)
    (libDefault : String → List String) (now : Nat)
    (hcfg : env.config = some cfg) (huri : cfg.jwks_uri = some uri)
    (hne : uri.isEmpty = false) (hfetch : loadJSON uri = .ok ⟨some ks⟩)
    (hget : mapGet (buildPemMap jwkToPem ks) kid = some pem) :
    verifyToken env tok kid loadJSON jwkToPem sigCheck libDefault now =
      (jwtVerify sigCheck libDefault now tok pem (verifyOptionsOf cfg),
       [Event.httpLoadJSON uri]) := by
  have hg := getJWKs_ok env cfg uri ks loadJSON jwkToPem hcfg huri hne hfetch
  have hhas := mapHas_of_get (buildPemMap jwkToPem ks) kid pem hget
  unfold verifyToken
  rw [hg]
  simp [hhas, hcfg, hget]

/-- C1: when the fetched JWKS yields a key map without the requested key
id, `verifyToken` fails with the `UnauthorizedException` — for every token
and every signature-check behaviour (`sigCheck`, `libDefault`, `now` are
universally quantified and absent from the conclusion, so no signature
check is consulted), and with no HTTP traffic beyond the one JWKS fetch. -/
theorem c1_unknown_kid_unauthorized (env : KeyCloakEnv)
    (cfg : OIDCIdentityConfig) (uri : String) (ks : List JWK) (tok : Jwt)
    (kid : String) (loadJSON : String → Except JSError JWKSResponse)
    (jwkToPem : JWK → String) (sigCheck : String → Jwt → String → Bool)
    (libDefault : String → List String) (now : Nat)
    (hcfg : env.config = some cfg) (huri : cfg.jwks_uri = some uri)
    (hne : uri.isEmpty = false) (hfetch : loadJSON uri = .ok ⟨some ks⟩)
    (hkid : mapHas (buildPemMap jwkToPem ks) kid = false) :
    verifyToken env tok kid loadJSON jwkToPem sigCheck libDefault now =
      (.error (.unauthorizedException
        "Authorization header contains an invalid JWT token."),
       [Event.httpLoadJSON uri]) := by
  have hg := getJWKs_ok env cfg uri ks loadJSON jwkToPem hcfg huri hne hfetch
  unfold verifyToken
  rw [hg]
  simp [hkid]

/-- Witness for C1: the key cache holds only `kid1`; a token presented
with `kid2` is rejected with the Unauthorized error even though the
signature check would have accepted anything. -/
theorem c1_unknown_kid_unauthorized_witness :
    verifyToken
        ⟨some "http://kc", some "r", ⟨some "a", some "as"⟩,
         ⟨some "u", some "us"⟩,
         some ⟨some "http://kc/realms/r", some "http://kc/introspect",
               some "http://kc/jwks", some "http://kc/token"⟩⟩
        ⟨⟨"RS256", some "kid2"⟩, ⟨some "http://kc/realms/r", none, none⟩, "sig"⟩
        "kid2"
        (fun _ => .ok ⟨some [⟨"kid1", "pubkeyA"⟩]⟩) (fun k => k.material)
        (fun _ _ _ => true) (fun _ => ["RS256"]) 0 =
      (.error (.unauthorizedException
        "Authorization header contains an invalid JWT token."),
       [Event.httpLoadJSON "http://kc/jwks"]) :=
  c1_unknown_kid_unauthorized
    ⟨some "http://kc", some "r", ⟨some "a", some "as"⟩,
     ⟨some "u", some "us"⟩,
     some ⟨some "http://kc/realms/r", some "http://kc/introspect",
           some "http://kc/jwks", some "http://kc/token"⟩⟩
    ⟨some "http://kc/realms/r", some "http://kc/introspect",
     some "http://kc/jwks", some "http://kc/token"⟩
    "http://kc/jwks" [⟨"kid1", "pubkeyA"⟩]
    ⟨⟨"RS256", some "kid2"⟩, ⟨some "http://kc/realms/r", none, none⟩, "sig"⟩
    "kid2" (fun _ => .ok ⟨some [⟨"kid1", "pubkeyA"⟩]⟩) (fun k => k.material)
    (fun _ _ _ => true) (fun _ => ["RS256"]) 0
    rfl rfl (by decide) rfl (by decide)

/-- C2 counterexample: `verifyToken` accepts a token whose header declares
the symmetric algorithm HS256 when the library's key-based default allows
it and the HMAC check passes — the code itself pins nothing, so acceptance
of a symmetric-algorithm token is decided entirely outside this code,
contradicting the claim that verifyToken rejects every such token. -/
theorem c2_counterexample :
    (verifyToken
        ⟨some "http://kc", some "r", ⟨some "a", some "as"⟩,
         ⟨some "u", some "us"⟩,
         some ⟨some "http://kc/realms/r", none, some "http://kc/jwks",
               some "http://kc/token"⟩⟩
        ⟨⟨"HS256", some "kid1"⟩, ⟨some "http://kc/realms/r", none, none⟩, "hmac"⟩
        "kid1"
        (fun _ => .ok ⟨some [⟨"kid1", "pubkeyA"⟩]⟩) (fun k => k.material)
        (fun _ _ _ => true) (fun _ => ["HS256", "RS256"]) 0).1 =
      .ok ⟨some "http://kc/realms/r", none, none⟩ := by decide

/-- C2 amended: `verifyToken` does not pin the signature algorithm; it
passes `verify` an options object whose `algorithms` field is absent, so
the allowed-algorithm list is whatever the library derives from the key
(`libDefault`), and the whole verification outcome is the library's. -/
theorem c2_no_algorithm_pinning (env : KeyCloakEnv)
    (cfg : OIDCIdentityConfig) (uri : String) (ks : List JWK) (pem : String)
    (tok : Jwt) (kid : String)
    (loadJSON : String → Except JSError JWKSResponse) (jwkToPem : JWK → String)
    (sigCheck : String → Jwt → String → Bool)
    (libDefault : String → List String) (now : Nat)
    (hcfg : env.config = some cfg) (huri : cfg.jwks_uri = some uri)
    (hne : uri.isEmpty = false) (hfetch : loadJSON uri = .ok ⟨some ks⟩)
    (hget : mapGet (buildPemMap jwkToPem ks) kid = some pem) :
    (verifyToken env tok kid loadJSON jwkToPem sigCheck libDefault now).1 =
      jwtVerify sigCheck libDefault now tok pem (verifyOptionsOf cfg)
    ∧ (verifyOptionsOf cfg).algorithms = none := by
  constructor
  · rw [verifyToken_delegates env cfg uri ks pem tok kid loadJSON jwkToPem
      sigCheck libDefault now hcfg huri hne hfetch hget]
  · rfl

/-- Witness for C2 amended: at a concrete state and HS256 token, the
verification outcome is exactly the library's, with no algorithm pin. -/
theorem c2_no_algorithm_pinning_witness :
    (verifyToken
        ⟨some "http://kc", some "r", ⟨some "a", some "as"⟩,
         ⟨some "u", some "us"⟩,
         some ⟨some "http://kc/realms/r", none, some "http://kc/jwks",
               some "http://kc/token"⟩⟩
        ⟨⟨"HS256", some "kid1"⟩, ⟨some "http://kc/realms/r", none, none⟩, "hmac"⟩
        "kid1"
        (fun _ => .ok ⟨some [⟨"kid1", "pubkeyA"⟩]⟩) (fun k => k.material)
        (fun _ _ _ => true) (fun _ => ["RS256"]) 0).1 =
      jwtVerify (fun _ _ _ => true) (fun _ => ["RS256"]) 0
        ⟨⟨"HS256", some "kid1"⟩, ⟨some "http://kc/realms/r", none, none⟩, "hmac"⟩
        "pubkeyA"
        (verifyOptionsOf ⟨some "http://kc/realms/r", none, some "http://kc/jwks",
          some "http://kc/token"⟩)
    ∧ (verifyOptionsOf ⟨some "http://kc/realms/r", none, some "http://kc/jwks",
        some "http://kc/token"⟩).algorithms = none :=
  c2_no_algorithm_pinning
    ⟨some "http://kc", some "r", ⟨some "a", some "as"⟩,
     ⟨some "u", some "us"⟩,
     some ⟨some "http://kc/realms/r", none, some "http://kc/jwks",
           some "http://kc/token"⟩⟩
    ⟨some "http://kc/realms/r", none, some "http://kc/jwks",
     some "http://kc/token"⟩
    "http://kc/jwks" [⟨"kid1", "pubkeyA"⟩] "pubkeyA"
    ⟨⟨"HS256", some "kid1"⟩, ⟨some "http://kc/realms/r", none, none⟩, "hmac"⟩
    "kid1" (fun _ => .ok ⟨some [⟨"kid1", "pubkeyA"⟩]⟩) (fun k => k.material)
    (fun _ _ _ => true) (fun _ => ["RS256"]) 0
    rfl rfl (by decide) rfl (by decide)

/-- Every outcome of `verify` under an issuer option that the token's
issuer claim does not meet is a verification error, whatever the
algorithm, signature and expiry situation. -/
theorem jwtVerify_issuer_mismatch (sigCheck : String → Jwt → String → Bool)
    (libDefault : String → List String) (now : Nat) (tok : Jwt) (key : String)
    (iss : String) (hne : iss.isEmpty = false)
    (hmm : tok.payload.iss ≠ some iss) :
    ∃ msg, jwtVerify sigCheck libDefault now tok key ⟨some iss, none⟩ =
      .error (.jwtError msg) := by
  unfold jwtVerify
  by_cases hc : tok.header.alg ∈ libDefault key
  · by_cases hs : sigCheck tok.header.alg tok key
    · by_cases he : (match tok.payload.exp with
                     | some e => decide (e ≤ now)
                     | none => false) = true
      · exact ⟨"jwt expired", by simp [hc, hs, he]⟩
      · refine ⟨"jwt issuer invalid", ?_⟩
        have hb : (tok.payload.iss == some iss) = false := by
          simp [hmm]
        simp [hc, hs, he, truthy, hne, hb]
    · exact ⟨"invalid signature", by simp [hc, hs]⟩
  · exact ⟨"invalid algorithm", by simp [hc]⟩

/-- C3: a token whose issuer claim differs from the cached discovery
document's (non-empty) issuer is never accepted: `verifyToken` returns a
verification error of the Unauthorized category (spec §7) and no claims —
whatever the signature check, algorithm list or clock say. -/
theorem c3_issuer_mismatch_unauthorized (env : KeyCloakEnv)
    (cfg : OIDCIdentityConfig) (uri : String) (ks : List JWK) (pem : String)
    (tok : Jwt) (kid : String) (iss : String)
    (loadJSON : String → Except JSError JWKSResponse) (jwkToPem : JWK → String)
    (sigCheck : String → Jwt → String → Bool)
    (libDefault : String → List String) (now : Nat)
    (hcfg : env.config = some cfg) (huri : cfg.jwks_uri = some uri)
    (hne : uri.isEmpty = false) (hfetch : loadJSON uri = .ok ⟨some ks⟩)
    (hget : mapGet (buildPemMap jwkToPem ks) kid = some pem)
    (hiss : cfg.issuer = some iss) (hissne : iss.isEmpty = false)
    (hmm : tok.payload.iss ≠ some iss) :
    ∃ e, (verifyToken env tok kid loadJSON jwkToPem sigCheck libDefault now).1 =
        .error e ∧ e.isUnauthorizedError = true := by
  obtain ⟨msg, hv⟩ := jwtVerify_issuer_mismatch sigCheck libDefault now tok pem
    iss hissne hmm
  refine ⟨.jwtError msg, ?_, rfl⟩
  rw [verifyToken_delegates env cfg uri ks pem tok kid loadJSON jwkToPem
    sigCheck libDefault now hcfg huri hne hfetch hget]
  rw [verifyOptionsOf, hiss]
  exact hv

/-- Witness for C3: a concrete token with a valid signature under the
looked-up key but issuer claim `http://evil` against cached issuer
`http://kc/realms/r` is rejected with an Unauthorized-category error. -/
theorem c3_issuer_mismatch_unauthorized_witness :
    ∃ e, (verifyToken
        ⟨some "http://kc", some "r", ⟨some "a", some "as"⟩,
         ⟨some "u", some "us"⟩,
         some ⟨some "http://kc/realms/r", none, some "http://kc/jwks",
               some "http://kc/token"⟩⟩
        ⟨⟨"RS256", some "kid1"⟩, ⟨some "http://evil", none, none⟩, "sig"⟩
        "kid1"
        (fun _ => .ok ⟨some [⟨"kid1", "pubkeyA"⟩]⟩) (fun k => k.material)
        (fun _ _ _ => true) (fun _ => ["RS256"]) 0).1 =
        .error e ∧ e.isUnauthorizedError = true :=
  c3_issuer_mismatch_unauthorized
    ⟨some "http://kc", some "r", ⟨some "a", some "as"⟩,
     ⟨some "u", some "us"⟩,
     some ⟨some "http://kc/realms/r", none, some "http://kc/jwks",
           some "http://kc/token"⟩⟩
    ⟨some "http://kc/realms/r", none, some "http://kc/jwks",
     some "http://kc/token"⟩
    "http://kc/jwks" [⟨"kid1", "pubkeyA"⟩] "pubkeyA"
    ⟨⟨"RS256", some "kid1"⟩, ⟨some "http://evil", none, none⟩, "sig"⟩
    "kid1" "http://kc/realms/r"
    (fun _ => .ok ⟨some [⟨"kid1", "pubkeyA"⟩]⟩) (fun k => k.material)
    (fun _ _ _ => true) (fun _ => ["RS256"]) 0
    rfl rfl (by decide) rfl (by decide) rfl (by decide) (by decide)

/-- C4 counterexample: a verification call made while the discovery cache
is still empty does crash with the low-level TypeError from dereferencing
the absent cache (`this.config.jwks_uri` with `this.config` undefined) —
not the cleanly reported error the claim demands. -/
theorem c4_counterexample :
    (verifyToken
        ⟨some "http://kc", some "r", ⟨some "a", some "as"⟩,
         ⟨some "u", some "us"⟩, none⟩
        ⟨⟨"RS256", some "kid1"⟩, ⟨some "http://kc/realms/r", none, none⟩, "sig"⟩
        "kid1"
        (fun _ => .error (.httpError "unreachable")) (fun k => k.material)
        (fun _ _ _ => true) (fun _ => ["RS256"]) 0).1 =
      .error (.typeError "Cannot read properties of undefined (reading jwks_uri)")
    ∧ (JSError.typeError "Cannot read properties of undefined (reading jwks_uri)").isConfigurationError
        = false := by
  exact ⟨by decide, by decide⟩

/-- C4 amended: while the discovery cache is entirely absent, verification
crashes with a TypeError from dereferencing it (before any network call);
once the cache is populated, a missing or empty `jwks_uri` fails cleanly
with the reported assertion error, also before any network call. -/
theorem c4_empty_cache_behaviour (env : KeyCloakEnv) (tok : Jwt) (kid : String)
    (loadJSON : String → Except JSError JWKSResponse) (jwkToPem : JWK → String)
    (sigCheck : String → Jwt → String → Bool)
    (libDefault : String → List String) (now : Nat) :
    (env.config = none →
      verifyToken env tok kid loadJSON jwkToPem sigCheck libDefault now =
        (.error (.typeError "Cannot read properties of undefined (reading jwks_uri)"),
         []))
    ∧ (∀ cfg : OIDCIdentityConfig, env.config = some cfg →
        truthy cfg.jwks_uri = false →
        verifyToken env tok kid loadJSON jwkToPem sigCheck libDefault now =
          (.error (.assertionError "Missing \"jwks_uri\""), [])) := by
  constructor
  · intro h
    unfold verifyToken getJWKs
    rw [h]
  · intro cfg hcfg htr
    unfold verifyToken getJWKs
    rw [hcfg]
    cases huri : cfg.jwks_uri with
    | none => simp [huri]
    | some uri =>
        rw [huri] at htr
        simp only [truthy] at htr
        simp at htr
        simp [huri, htr]

/-- Witness for C4 amended: exercised at a concrete pre-discovery state
(TypeError) and at a concrete state whose cached document lacks
`jwks_uri` (clean assertion error). -/
theorem c4_empty_cache_behaviour_witness :
    verifyToken
        ⟨some "http://kc", some "r", ⟨some "a", some "as"⟩,
         ⟨some "u", some "us"⟩, none⟩
        ⟨⟨"RS256", some "kid1"⟩, ⟨some "http://kc/realms/r", none, none⟩, "sig"⟩
        "kid1"
        (fun _ => .error (.httpError "unreachable")) (fun k => k.material)
        (fun _ _ _ => true) (fun _ => ["RS256"]) 0 =
      (.error (.typeError "Cannot read properties of undefined (reading jwks_uri)"),
       [])
    ∧ verifyToken
        ⟨some "http://kc", some "r", ⟨some "a", some "as"⟩,
         ⟨some "u", some "us"⟩,
         some ⟨some "http://kc/realms/r", none, none, some "http://kc/token"⟩⟩
        ⟨⟨"RS256", some "kid1"⟩, ⟨some "http://kc/realms/r", none, none⟩, "sig"⟩
        "kid1"
        (fun _ => .error (.httpError "unreachable")) (fun k => k.material)
        (fun _ _ _ => true) (fun _ => ["RS256"]) 0 =
      (.error (.assertionError "Missing \"jwks_uri\""), []) :=
  ⟨(c4_empty_cache_behaviour
      ⟨some "http://kc", some "r", ⟨some "a", some "as"⟩,
       ⟨some "u", some "us"⟩, none⟩
      ⟨⟨"RS256", some "kid1"⟩, ⟨some "http://kc/realms/r", none, none⟩, "sig"⟩
      "kid1" (fun _ => .error (.httpError "unreachable")) (fun k => k.material)
      (fun _ _ _ => true) (fun _ => ["RS256"]) 0).1 rfl,
   (c4_empty_cache_behaviour
      ⟨some "http://kc", some "r", ⟨some "a", some "as"⟩,
       ⟨some "u", some "us"⟩,
       some ⟨some "http://kc/realms/r", none, none, some "http://kc/token"⟩⟩
      ⟨⟨"RS256", some "kid1"⟩, ⟨some "http://kc/realms/r", none, none⟩, "sig"⟩
      "kid1" (fun _ => .error (.httpError "unreachable")) (fun k => k.material)
      (fun _ _ _ => true) (fun _ => ["RS256"]) 0).2
     ⟨some "http://kc/realms/r", none, none, some "http://kc/token"⟩ rfl rfl⟩

/-- C5: with the discovery document cached and all client credentials
present, `generateToken` with credentials issues exactly one POST to the
discovered token endpoint whose form-url-encoded body holds `username`,
`password`, `grant_type=password` and the user client id and secret, and
`generateToken` without credentials issues exactly one POST whose body
holds `grant_type=client_credentials` and the admin client id and secret —
both with Content-Type `application/x-www-form-urlencoded`. -/
theorem c5_generate_token_bodies (env : KeyCloakEnv)
    (cfg : OIDCIdentityConfig) (td : GenerateTokenData) (ep : String)
    (uid usec aid asec : String)
    (post : Option String → String → Except JSError Token)
    (hcfg : env.config = some cfg) (hep : cfg.token_endpoint = some ep)
    (huid : env.clientUser.client_id = some uid)
    (husec : env.clientUser.client_secret = some usec)
    (haid : env.clientAdmin.client_id = some aid)
    (hasec : env.clientAdmin.client_secret = some asec) :
    requestsOf (generateToken env (some td) post).2 =
      [Event.httpPost (some ep)
        (.form (stringify [("username", some td.username),
          ("password", some td.password), ("grant_type", some "password"),
          ("client_id", some uid), ("client_secret", some usec)]))
        [("Content-Type", "application/x-www-form-urlencoded")]]
    ∧ requestsOf (generateToken env none post).2 =
      [Event.httpPost (some ep)
        (.form (stringify [("grant_type", some "client_credentials"),
          ("client_id", some aid), ("client_secret", some asec)]))
        [("Content-Type", "application/x-www-form-urlencoded")]] := by
  constructor
  · unfold generateToken generateTokenBody
    rw [hcfg, huid, husec]
    simp [requestsOf, hep, Event.isHttpRequest]
  · unfold generateToken generateTokenBody
    rw [hcfg, haid, hasec]
    simp [requestsOf, hep, Event.isHttpRequest]

/-- Witness for C5: the two request traces computed at a concrete state
and concrete credentials. -/
theorem c5_generate_token_bodies_witness :
    requestsOf (generateToken
        ⟨some "http://kc", some "r", ⟨some "admin-cli", some "adminsecret"⟩,
         ⟨some "user-cli", some "usersecret"⟩,
         some ⟨some "http://kc/realms/r", none, some "http://kc/jwks",
               some "http://kc/token"⟩⟩
        (some ⟨"alice", "pw"⟩)
        (fun _ _ => .error (.httpError "down"))).2 =
      [Event.httpPost (some "http://kc/token")
        (.form (stringify [("username", some "alice"), ("password", some "pw"),
          ("grant_type", some "password"), ("client_id", some "user-cli"),
          ("client_secret", some "usersecret")]))
        [("Content-Type", "application/x-www-form-urlencoded")]]
    ∧ requestsOf (generateToken
        ⟨some "http://kc", some "r", ⟨some "admin-cli", some "adminsecret"⟩,
         ⟨some "user-cli", some "usersecret"⟩,
         some ⟨some "http://kc/realms/r", none, some "http://kc/jwks",
               some "http://kc/token"⟩⟩
        none (fun _ _ => .error (.httpError "down"))).2 =
      [Event.httpPost (some "http://kc/token")
        (.form (stringify [("grant_type", some "client_credentials"),
          ("client_id", some "admin-cli"), ("client_secret", some "adminsecret")]))
        [("Content-Type", "application/x-www-form-urlencoded")]] :=
  c5_generate_token_bodies
    ⟨some "http://kc", some "r", ⟨some "admin-cli", some "adminsecret"⟩,
     ⟨some "user-cli", some "usersecret"⟩,
     some ⟨some "http://kc/realms/r", none, some "http://kc/jwks",
           some "http://kc/token"⟩⟩
    ⟨some "http://kc/realms/r", none, some "http://kc/jwks",
     some "http://kc/token"⟩
    ⟨"alice", "pw"⟩ "http://kc/token" "user-cli" "usersecret" "admin-cli"
    "adminsecret" (fun _ _ => .error (.httpError "down"))
    rfl rfl rfl rfl rfl rfl

/-- C6 counterexample: the discovery cache is populated but holds no token
endpoint, yet `generateToken` does not fail with a configuration error — it
issues the HTTP POST anyway (with an undefined URL) and returns whatever
the transport answers. -/
theorem c6_counterexample :
    (generateToken
        ⟨some "http://kc", some "r", ⟨some "a", some "as"⟩,
         ⟨some "u", some "us"⟩, some ⟨none, none, none, none⟩⟩
        none
        (fun _ _ => .ok ⟨"Bearer", "tok", none, 0, none⟩)).1 =
      .ok ⟨"Bearer", "tok", none, 0, none⟩
    ∧ requestsOf (generateToken
        ⟨some "http://kc", some "r", ⟨some "a", some "as"⟩,
         ⟨some "u", some "us"⟩, some ⟨none, none, none, none⟩⟩
        none
        (fun _ _ => .ok ⟨"Bearer", "tok", none, 0, none⟩)).2 ≠ [] := by
  exact ⟨by decide, by decide⟩

/-- C6 amended: `generateToken` performs no presence check on the token
endpoint. Whenever the discovery cache is populated, the POST is issued
with whatever `token_endpoint` holds — possibly `undefined` — and the
result is the transport's response; only when the discovery cache itself
is absent does the call fail without a request, and then with a TypeError,
not a configuration error. -/
theorem c6_no_endpoint_check (env : KeyCloakEnv) (cfg : OIDCIdentityConfig)
    (tokenData : Option GenerateTokenData)
    (post : Option String → String → Except JSError Token)
    (hcfg : env.config = some cfg) :
    (generateToken env tokenData post).1 =
      post cfg.token_endpoint (generateTokenBody env tokenData)
    ∧ requestsOf (generateToken env tokenData post).2 =
      [Event.httpPost cfg.token_endpoint
        (.form (generateTokenBody env tokenData))
        [("Content-Type", "application/x-www-form-urlencoded")]]
    ∧ (∀ env2 : KeyCloakEnv, env2.config = none →
        (generateToken env2 tokenData post).1 =
          .error (.typeError "Cannot read properties of undefined (reading token_endpoint)")
        ∧ requestsOf (generateToken env2 tokenData post).2 = []) := by
  refine ⟨?_, ?_, ?_⟩
  · unfold generateToken
    rw [hcfg]
  · unfold generateToken
    rw [hcfg]
    simp [requestsOf, Event.isHttpRequest]
  · intro env2 h2
    unfold generateToken
    rw [h2]
    exact ⟨rfl, rfl⟩

/-- Witness for C6 amended: at a concrete state whose cached document has
no token endpoint, the POST is issued to the undefined URL and the
transport's response is returned. -/
theorem c6_no_endpoint_check_witness :
    (generateToken
        ⟨some "http://kc", some "r", ⟨some "a", some "as"⟩,
         ⟨some "u", some "us"⟩, some ⟨none, none, none, none⟩⟩
        none (fun _ _ => .error (.httpError "bad url"))).1 =
      (fun (_ : Option String) (_ : String) =>
        (.error (.httpError "bad url") : Except JSError Token)) none
        (generateTokenBody
          ⟨some "http://kc", some "r", ⟨some "a", some "as"⟩,
           ⟨some "u", some "us"⟩, some ⟨none, none, none, none⟩⟩ none)
    ∧ requestsOf (generateToken
        ⟨some "http://kc", some "r", ⟨some "a", some "as"⟩,
         ⟨some "u", some "us"⟩, some ⟨none, none, none, none⟩⟩
        none (fun _ _ => .error (.httpError "bad url"))).2 =
      [Event.httpPost none
        (.form (generateTokenBody
          ⟨some "http://kc", some "r", ⟨some "a", some "as"⟩,
           ⟨some "u", some "us"⟩, some ⟨none, none, none, none⟩⟩ none))
        [("Content-Type", "application/x-www-form-urlencoded")]]
    ∧ (∀ env2 : KeyCloakEnv, env2.config = none →
        (generateToken env2 none (fun _ _ =>
          (.error (.httpError "bad url") : Except JSError Token))).1 =
          .error (.typeError "Cannot read properties of undefined (reading token_endpoint)")
        ∧ requestsOf (generateToken env2 none (fun _ _ =>
            (.error (.httpError "bad url") : Except JSError Token))).2 = []) :=
  c6_no_endpoint_check
    ⟨some "http://kc", some "r", ⟨some "a", some "as"⟩,
     ⟨some "u", some "us"⟩, some ⟨none, none, none, none⟩⟩
    ⟨none, none, none, none⟩ none
    (fun _ _ => .error (.httpError "bad url")) rfl

/-- C8 counterexample: when the admin token request fails, `registerUser`
propagates the error to the caller, but no `log.error` line is emitted —
the failure happens before the method's `try` block, and the catch inside
`generateToken` wraps a `return` of an un-awaited promise, so it never sees
the rejection. This contradicts the claim that any token-acquisition error
propagates "after being logged". -/
theorem c8_counterexample :
    (registerUser
        ⟨some "http://kc", some "r", ⟨some "admin-cli", some "adminsecret"⟩,
         ⟨some "user-cli", some "usersecret"⟩,
         some ⟨some "http://kc/realms/r", none, some "http://kc/jwks",
               some "http://kc/token"⟩⟩
        ⟨"a@b.com", "A", "B", "p"⟩
        (fun _ _ => .error (.httpError "token endpoint down"))
        (fun _ _ _ => .ok ())).1 = .error (.httpError "token endpoint down")
    ∧ Event.logError ∉ (registerUser
        ⟨some "http://kc", some "r", ⟨some "admin-cli", some "adminsecret"⟩,
         ⟨some "user-cli", some "usersecret"⟩,
         some ⟨some "http://kc/realms/r", none, some "http://kc/jwks",
               some "http://kc/token"⟩⟩
        ⟨"a@b.com", "A", "B", "p"⟩
        (fun _ _ => .error (.httpError "token endpoint down"))
        (fun _ _ _ => .ok ())).2 := by
  exact ⟨by decide, by decide⟩

/-- C8 amended: with the discovery document cached and the admin
client-credentials token request succeeding, `registerUser` issues exactly
one token request followed by exactly one POST to
`(server_uri)/admin/realms/(realm)/users` carrying the documented JSON body
and the bearer Authorization header, and: a provider error on that POST is
logged (`log.error`) and rethrown; a token-acquisition error propagates to
the caller but without being logged. -/
theorem c8_register_user_requests (env : KeyCloakEnv)
    (cfg : OIDCIdentityConfig) (d : RegisterUserData) (tok : Token)
    (postToken : Option String → String → Except JSError Token)
    (postUsers : String → UserRepresentation → List (String × String) →
      Except JSError Unit)
    (hcfg : env.config = some cfg)
    (htok : postToken cfg.token_endpoint (generateTokenBody env none) = .ok tok) :
    registerBody d =
      { firstName := d.firstName, lastName := d.lastName, email := d.email,
        enabled := true, username := d.email,
        credentials := [{ type := "password", value := d.password,
                          temporary := false }] }
    ∧ requestsOf (registerUser env d postToken postUsers).2 =
      [Event.httpPost cfg.token_endpoint
         (.form (generateTokenBody env none))
         [("Content-Type", "application/x-www-form-urlencoded")],
       Event.httpPost (some (registerUrl env)) (.json (registerBody d))
         [("Content-Type", "application/json"),
          ("Authorization", tok.token_type ++ " " ++ tok.access_token)]]
    ∧ (postUsers (registerUrl env) (registerBody d)
         [("Content-Type", "application/json"),
          ("Authorization", tok.token_type ++ " " ++ tok.access_token)] = .ok () →
       (registerUser env d postToken postUsers).1 = .ok ())
    ∧ (∀ e, postUsers (registerUrl env) (registerBody d)
         [("Content-Type", "application/json"),
          ("Authorization", tok.token_type ++ " " ++ tok.access_token)] = .error e →
       (registerUser env d postToken postUsers).1 = .error e
       ∧ Event.logError ∈ (registerUser env d postToken postUsers).2)
    ∧ (∀ e (postToken2 : Option String → String → Except JSError Token),
        postToken2 cfg.token_endpoint (generateTokenBody env none) = .error e →
        (registerUser env d postToken2 postUsers).1 = .error e
        ∧ Event.logError ∉ (registerUser env d postToken2 postUsers).2) := by
  have hgen : generateToken env none postToken =
      (.ok tok,
       [Event.consoleLog (generateTokenBody env none),
        Event.httpPost cfg.token_endpoint (.form (generateTokenBody env none))
          [("Content-Type", "application/x-www-form-urlencoded")]]) := by
    unfold generateToken
    rw [hcfg]
    simp [htok]
  refine ⟨rfl, ?_, ?_, ?_, ?_⟩
  · unfold registerUser
    rw [hgen]
    cases hpu : postUsers (registerUrl env) (registerBody d)
        [("Content-Type", "application/json"),
         ("Authorization", tok.token_type ++ " " ++ tok.access_token)] with
    | error e => simp [hpu, requestsOf, Event.isHttpRequest]
    | ok u => simp [hpu, requestsOf, Event.isHttpRequest]
  · intro hok
    unfold registerUser
    rw [hgen]
    simp [hok]
  · intro e herr
    unfold registerUser
    rw [hgen]
    constructor
    · simp [herr]
    · simp [herr]
  · intro e postToken2 htok2
    have hgen2 : generateToken env none postToken2 =
        (.error e,
         [Event.consoleLog (generateTokenBody env none),
          Event.httpPost cfg.token_endpoint (.form (generateTokenBody env none))
            [("Content-Type", "application/x-www-form-urlencoded")]]) := by
      unfold generateToken
      rw [hcfg]
      simp [htok2]
    constructor
    · unfold registerUser
      rw [hgen2]
    · unfold registerUser
      rw [hgen2]
      simp

/-- A concrete post-discovery service state used to exercise
`registerUser`. -/
def envC8 : KeyCloakEnv :=
  ⟨some "http://kc", some "r", ⟨some "admin-cli", some "adminsecret"⟩,
   ⟨some "user-cli", some "usersecret"⟩,
   some ⟨some "http://kc/realms/r", none, some "http://kc/jwks",
         some "http://kc/token"⟩⟩

/-- Witness for C8 amended: exercised at a concrete state, concrete
registration data and oracles whose token request succeeds. -/
theorem c8_register_user_requests_witness :
    registerBody ⟨"a@b.com", "A", "B", "p"⟩ =
      { firstName := "A", lastName := "B", email := "a@b.com",
        enabled := true, username := "a@b.com",
        credentials := [{ type := "password", value := "p",
                          temporary := false }] }
    ∧ requestsOf (registerUser envC8 ⟨"a@b.com", "A", "B", "p"⟩
        (fun _ _ => .ok ⟨"Bearer", "xyz", none, 0, none⟩)
        (fun _ _ _ => .ok ())).2 =
      [Event.httpPost (some "http://kc/token")
         (.form (generateTokenBody envC8 none))
         [("Content-Type", "application/x-www-form-urlencoded")],
       Event.httpPost (some (registerUrl envC8))
         (.json (registerBody ⟨"a@b.com", "A", "B", "p"⟩))
         [("Content-Type", "application/json"), ("Authorization", "Bearer xyz")]]
    ∧ ((fun (_ : String) (_ : UserRepresentation) (_ : List (String × String)) =>
          (.ok () : Except JSError Unit)) (registerUrl envC8)
          (registerBody ⟨"a@b.com", "A", "B", "p"⟩)
          [("Content-Type", "application/json"), ("Authorization", "Bearer xyz")] = .ok () →
        (registerUser envC8 ⟨"a@b.com", "A", "B", "p"⟩
          (fun _ _ => .ok ⟨"Bearer", "xyz", none, 0, none⟩)
          (fun _ _ _ => .ok ())).1 = .ok ())
    ∧ (∀ e, (fun (_ : String) (_ : UserRepresentation) (_ : List (String × String)) =>
          (.ok () : Except JSError Unit)) (registerUrl envC8)
          (registerBody ⟨"a@b.com", "A", "B", "p"⟩)
          [("Content-Type", "application/json"), ("Authorization", "Bearer xyz")] = .error e →
        (registerUser envC8 ⟨"a@b.com", "A", "B", "p"⟩
          (fun _ _ => .ok ⟨"Bearer", "xyz", none, 0, none⟩)
          (fun _ _ _ => .ok ())).1 = .error e
        ∧ Event.logError ∈ (registerUser envC8 ⟨"a@b.com", "A", "B", "p"⟩
            (fun _ _ => .ok ⟨"Bearer", "xyz", none, 0, none⟩)
            (fun _ _ _ => .ok ())).2)
    ∧ (∀ e (postToken2 : Option String → String → Except JSError Token),
        postToken2 (some "http://kc/token") (generateTokenBody envC8 none) = .error e →
        (registerUser envC8 ⟨"a@b.com", "A", "B", "p"⟩ postToken2
          (fun _ _ _ => .ok ())).1 = .error e
        ∧ Event.logError ∉ (registerUser envC8 ⟨"a@b.com", "A", "B", "p"⟩
            postToken2 (fun _ _ _ => .ok ())).2) :=
  c8_register_user_requests envC8
    ⟨some "http://kc/realms/r", none, some "http://kc/jwks",
     some "http://kc/token"⟩
    ⟨"a@b.com", "A", "B", "p"⟩ ⟨"Bearer", "xyz", none, 0, none⟩
    (fun _ _ => .ok ⟨"Bearer", "xyz", none, 0, none⟩)
    (fun _ _ _ => .ok ()) rfl rfl

end KeyCloak
